import Mathlib

/-!
Verification of the Remora tail-risk tracker (`remora_tracker/app.py`).

The dashboard's computational core is embedded shallowly:

* prices and percentages are rationals (`ℚ`), standing for the exact real
  arithmetic the formulas denote;
* the transcendental primitives `np.exp`, `np.sqrt`, `np.log` are abstract
  function parameters `expQ sqrtQ logQ : ℚ → ℚ`, since none of the verified
  properties depend on their values;
* pandas NaN values (mean of an empty series, sample standard deviation of a
  single observation) are modelled by `Option ℚ`, where `none` is NaN and the
  arithmetic on simulated prices propagates `none`;
* the random draws `np.random.normal(0, 1, paths)` of refresh tick `i` are an
  abstract family `rand : ℕ → ℕ → ℚ` (step index, path index);
* the callback's three-part return value (text panel, gauge figure,
  simulation figure) is the type `CallbackResult`: the constructor `message`
  stands for the `html.P(text), go.Figure(), go.Figure()` returns used for
  the empty-data case and for the `except` branch, and `dashboard` for the
  full result.
-/

namespace Remora

/-- One entry of the `warrants_data` table: barrier levels and gearing of a
single instrument. -/
structure WarrantConfig where
  long_ko : ℚ
  short_ko : ℚ
  gearing : ℚ
  deriving DecidableEq

/-- The single hardcoded instrument `WES Tail Hedge (KOQ)` with
`long_ko = 60.00`, `short_ko = 97.14`, `gearing = 73`. -/
def wes : WarrantConfig := ⟨60.00, 97.14, 73⟩

/-- The `warrants_data` dict of the source: one instrument. -/
def warrants_data : List (String × WarrantConfig) :=
  [("WES Tail Hedge (KOQ)", wes)]

/-- The `interval_presets` dict: preset label to seconds. -/
def interval_presets : List (String × ℤ) :=
  [("Turbo Mode (10s)", 10), ("Coffee Break (120s)", 120),
   ("Cruise (60s)", 60), ("Nap Time (300s)", 300)]

/-- `dcc.Slider` bound `min=10` of the interval slider. -/
def interval_slider_min : ℤ := 10

/-- `dcc.Slider` bound `max=300` of the interval slider. -/
def interval_slider_max : ℤ := 300

/-- `dcc.Slider` step `step=10` of the interval slider. -/
def interval_slider_step : ℤ := 10

/-- Callback `sync_preset_to_slider`: the slider value becomes the chosen
preset value. -/
def sync_preset_to_slider (preset_value : ℤ) : ℤ := preset_value

/-- Callback `update_interval`: the timer period in milliseconds is the
slider's seconds times 1000. -/
def update_interval (seconds : ℤ) : ℤ := seconds * 1000

/-- Line 85: `long_buffer = ((current_price - long_ko) / long_ko) * 100`. -/
def long_buffer (current_price long_ko : ℚ) : ℚ :=
  ((current_price - long_ko) / long_ko) * 100

/-- Line 86: `short_buffer = ((short_ko - current_price) / short_ko) * 100`. -/
def short_buffer (current_price short_ko : ℚ) : ℚ :=
  ((short_ko - current_price) / short_ko) * 100

/-- Line 88: gauge bar color of the long side. -/
def long_color (long_buffer : ℚ) : String :=
  if long_buffer ≥ 5 then "green" else "orange"

/-- Line 89: gauge bar color of the short side. -/
def short_color (short_buffer : ℚ) : String :=
  if short_buffer ≥ 5 then "red" else "darkred"

/-- Line 90: the risk tag as a step function of the gearing. -/
def risk_tag (gearing : ℚ) : String :=
  if gearing > 50 then "🧨 HIGH RISK"
  else if gearing > 30 then "⚠️ MODERATE" else "✅ Stable"

/-- Rounding a rational to two decimals, modelling the `:.2f` format used in
the displayed buffer percentages. -/
def round2 (q : ℚ) : ℚ := ((round (q * 100) : ℤ) : ℚ) / 100

/-- pandas `Series.mean()`: NaN (`none`) on an empty series, else the sum
divided by the count. -/
def mean? (xs : List ℚ) : Option ℚ :=
  if xs.length = 0 then none else some (xs.sum / (xs.length : ℚ))

/-- pandas sample variance (the default `ddof = 1`): NaN (`none`) unless
there are at least two observations. -/
def var1? (xs : List ℚ) : Option ℚ :=
  if xs.length < 2 then none
  else some ((xs.map (fun x => (x - xs.sum / (xs.length : ℚ)) ^ 2)).sum
    / ((xs.length : ℚ) - 1))

/-- pandas `Series.std()`: square root of the `ddof = 1` variance, with NaN
propagating through the square root. -/
def std? (sqrtQ : ℚ → ℚ) (xs : List ℚ) : Option ℚ :=
  (var1? xs).map sqrtQ

/-- Line 118: `np.log(hist['Close'] / hist['Close'].shift(1)).dropna()`.
Entry `t` is the log of `close[t+1] / close[t]`; the undefined first ratio
is dropped, so the list pairs the series with its tail. -/
def log_returns (logQ : ℚ → ℚ) (closes : List ℚ) : List ℚ :=
  List.zipWith (fun prev cur => logQ (cur / prev)) closes closes.tail

/-- Line 121: `paths = 10`. -/
def paths : ℕ := 10

/-- Line 122: `steps = 30`. -/
def steps : ℕ := 30

/-- Line 123: `dt = 1`. -/
def dt : ℚ := 1

/-- NaN-propagating multiplication on simulated prices. -/
def omul : Option ℚ → Option ℚ → Option ℚ
  | some a, some b => some (a * b)
  | _, _ => none

/-- The per-step growth factor
`np.exp((mu - 0.5 * sigma ** 2) * dt + sigma * np.sqrt(dt) * z)` of line 128;
NaN (`none`) as soon as the drift or the volatility estimate is NaN. -/
def gbm_factor (expQ sqrtQ : ℚ → ℚ) (mu? sigma? : Option ℚ) (z : ℚ) : Option ℚ :=
  match mu?, sigma? with
  | some mu, some sigma =>
      some (expQ ((mu - 0.5 * sigma ^ 2) * dt + sigma * sqrtQ dt * z))
  | _, _ => none

/-- One execution of the line 128 loop body: every path advances by its own
draw. -/
def sim_row (expQ sqrtQ : ℚ → ℚ) (mu? sigma? : Option ℚ)
    (prev : List (Option ℚ)) (z : List ℚ) : List (Option ℚ) :=
  List.zipWith (fun p r => omul p (gbm_factor expQ sqrtQ mu? sigma? r)) prev z

/-- Row `i` of the simulation array: row 0 is `sim_paths[0] = current_price`
(line 125), row `i+1` comes from row `i` and the fresh draws
`np.random.normal(0, 1, paths)` of step `i+1` (lines 126-128). -/
def sim_rows (expQ sqrtQ : ℚ → ℚ) (mu? sigma? : Option ℚ)
    (current_price : ℚ) (rand : ℕ → ℕ → ℚ) : ℕ → List (Option ℚ)
  | 0 => List.replicate paths (some current_price)
  | i + 1 =>
      sim_row expQ sqrtQ mu? sigma?
        (sim_rows expQ sqrtQ mu? sigma? current_price rand i)
        ((List.range paths).map (rand (i + 1)))

/-- Lines 124-128: the `steps × paths` grid of simulated prices. -/
def sim_paths (expQ sqrtQ : ℚ → ℚ) (mu? sigma? : Option ℚ)
    (current_price : ℚ) (rand : ℕ → ℕ → ℚ) : List (List (Option ℚ)) :=
  (List.range steps).map (sim_rows expQ sqrtQ mu? sigma? current_price rand)

/-- The values rendered in the text panel of lines 92-97. -/
structure Display where
  current_price : ℚ
  long_ko : ℚ
  long_buffer : ℚ
  short_ko : ℚ
  short_buffer : ℚ
  gearing : ℚ
  risk_tag : String
  deriving DecidableEq

/-- The two gauge indicators of lines 100-114: values and bar colors. -/
structure Gauges where
  long_value : ℚ
  long_bar_color : String
  short_value : ℚ
  short_bar_color : String
  deriving DecidableEq

/-- The three outputs of the callback. `message s` stands for the returns of
the shape `html.P(s), go.Figure(), go.Figure()` (a text message next to two
empty figures); `dashboard` for the full text panel, gauge figure and
simulation figure. -/
inductive CallbackResult where
  | message (text : String)
  | dashboard (display : Display) (gauges : Gauges) (sim : List (List (Option ℚ)))
  deriving DecidableEq

/-- The `try` body of `update_live_price` after the fetch, applied to the
fetched closing prices. `cfg` is `warrants_data[label]`. The empty check of
line 77 and `current_price = hist['Close'].iloc[-1]` of line 80 are the match
on the last element. -/
def update_live_price (cfg : WarrantConfig) (closes : List ℚ)
    (expQ sqrtQ logQ : ℚ → ℚ) (rand : ℕ → ℕ → ℚ) : CallbackResult :=
  match closes.getLast? with
  | none => .message "No data available..."
  | some current_price =>
      .dashboard
        ⟨current_price, cfg.long_ko, long_buffer current_price cfg.long_ko,
          cfg.short_ko, short_buffer current_price cfg.short_ko,
          cfg.gearing, risk_tag cfg.gearing⟩
        ⟨long_buffer current_price cfg.long_ko,
          long_color (long_buffer current_price cfg.long_ko),
          short_buffer current_price cfg.short_ko,
          short_color (short_buffer current_price cfg.short_ko)⟩
        (sim_paths expQ sqrtQ
          (mean? (log_returns logQ closes))
          (std? sqrtQ (log_returns logQ closes))
          current_price rand)

/-- The whole callback with its `try`/`except`: the fetch either yields the
closing prices or fails with the exception text `e`, in which case line 146
returns `html.P(f"Error loading data: {e}"), go.Figure(), go.Figure()`. -/
def update_live_price_guarded (fetch : Except String (List ℚ))
    (cfg : WarrantConfig) (expQ sqrtQ logQ : ℚ → ℚ)
    (rand : ℕ → ℕ → ℚ) : CallbackResult :=
  match fetch with
  | .error e => .message ("Error loading data: " ++ e)
  | .ok closes => update_live_price cfg closes expQ sqrtQ logQ rand

/-- The message of a `message` result, `none` on a full dashboard. -/
def messageOf : CallbackResult → Option String
  | .message s => some s
  | .dashboard _ _ _ => none

/-- The text panel of a `dashboard` result. -/
def displayOf : CallbackResult → Option Display
  | .message _ => none
  | .dashboard d _ _ => some d

/-- The gauge data of a `dashboard` result. -/
def gaugesOf : CallbackResult → Option Gauges
  | .message _ => none
  | .dashboard _ g _ => some g

/-- The simulation grid of a `dashboard` result. -/
def gridOf : CallbackResult → Option (List (List (Option ℚ)))
  | .message _ => none
  | .dashboard _ _ g => some g

/-! ### Helper lemmas about the simulation grid -/

/-- Every row of the simulation array has one entry per path. -/
theorem sim_rows_length (expQ sqrtQ : ℚ → ℚ) (mu? sigma? : Option ℚ) (P : ℚ)
    (rand : ℕ → ℕ → ℚ) (i : ℕ) :
    (sim_rows expQ sqrtQ mu? sigma? P rand i).length = paths := by
  induction i with
  | zero => simp [sim_rows]
  | succ i ih => simp [sim_rows, sim_row, List.length_zipWith, ih]

/-- Row `i` of the grid, for `i` below the step count. -/
theorem sim_paths_getD (expQ sqrtQ : ℚ → ℚ) (mu? sigma? : Option ℚ) (P : ℚ)
    (rand : ℕ → ℕ → ℚ) (i : ℕ) (h : i < steps) :
    (sim_paths expQ sqrtQ mu? sigma? P rand).getD i []
      = sim_rows expQ sqrtQ mu? sigma? P rand i := by
  simp [sim_paths, List.getD_eq_getElem?_getD, List.getElem?_map,
    List.getElem?_range, h]

/-- Entry `j` of row `i + 1`: the previous value of the same path times the
growth factor built from that path's fresh draw. -/
theorem sim_rows_succ_getD (expQ sqrtQ : ℚ → ℚ) (mu? sigma? : Option ℚ)
    (P : ℚ) (rand : ℕ → ℕ → ℚ) (i j : ℕ) (hj : j < paths) :
    (sim_rows expQ sqrtQ mu? sigma? P rand (i + 1)).getD j none
      = omul ((sim_rows expQ sqrtQ mu? sigma? P rand i).getD j none)
          (gbm_factor expQ sqrtQ mu? sigma? (rand (i + 1) j)) := by
  have hlen : j < (sim_rows expQ sqrtQ mu? sigma? P rand i).length := by
    rw [sim_rows_length]; exact hj
  have ha := List.getElem?_eq_getElem hlen
  rw [sim_rows, sim_row, List.getD_eq_getElem?_getD, List.getElem?_zipWith',
    ha, List.getElem?_map, List.getElem?_range hj,
    List.getD_eq_getElem?_getD, ha]
  rfl

/-- The log-return series is one shorter than the price series. -/
theorem log_returns_length (logQ : ℚ → ℚ) (closes : List ℚ) :
    (log_returns logQ closes).length = closes.length - 1 := by
  simp [log_returns, List.length_zipWith]

/-- Entry `t` of the log-return series is the log of the ratio of
consecutive closes. -/
theorem log_returns_getD (logQ : ℚ → ℚ) (closes : List ℚ) (t : ℕ)
    (h : t + 1 < closes.length) :
    (log_returns logQ closes).getD t 0
      = logQ (closes.getD (t + 1) 0 / closes.getD t 0) := by
  have ht : t < closes.length := by omega
  have htail : t < closes.tail.length := by
    simp [List.length_tail]; omega
  rw [log_returns, List.getD_eq_getElem?_getD, List.getElem?_zipWith',
    List.getElem?_eq_getElem ht, List.getElem?_eq_getElem htail,
    List.getD_eq_getElem?_getD, List.getElem?_eq_getElem h,
    List.getD_eq_getElem?_getD, List.getElem?_eq_getElem ht]
  simp [List.getElem_tail]

/-! ### The claims -/

/-- C1: for a positive current price `P` (the last close) and the fixed
barriers `long_ko = 60` and `short_ko = 97.14`, the callback's gauges carry
exactly `long_buffer = (P - 60) / 60 * 100` and
`short_buffer = (97.14 - P) / 97.14 * 100`; at `P = 100` the two buffers
round to `66.67` and `-2.94`. -/
theorem C1_buffer_formulas (P : ℚ) (closes : List ℚ) (_hpos : 0 < P)
    (hP : closes.getLast? = some P) (expQ sqrtQ logQ : ℚ → ℚ)
    (rand : ℕ → ℕ → ℚ) :
    gaugesOf (update_live_price wes closes expQ sqrtQ logQ rand)
      = some ⟨long_buffer P wes.long_ko, long_color (long_buffer P wes.long_ko),
          short_buffer P wes.short_ko,
          short_color (short_buffer P wes.short_ko)⟩ ∧
    long_buffer P wes.long_ko = (P - 60) / 60 * 100 ∧
    short_buffer P wes.short_ko = (97.14 - P) / 97.14 * 100 ∧
    round2 (long_buffer 100 wes.long_ko) = 66.67 ∧
    round2 (short_buffer 100 wes.short_ko) = -2.94 := by
  refine ⟨?_, ?_, ?_, ?_, ?_⟩
  · simp [update_live_price, hP, gaugesOf]
  · norm_num [long_buffer, wes]
  · norm_num [short_buffer, wes]
  · have h1 : long_buffer 100 wes.long_ko = 200 / 3 := by
      norm_num [long_buffer, wes]
    have h2 : round ((200 : ℚ) / 3 * 100) = 6667 := by
      rw [round_eq, Int.floor_eq_iff]
      norm_num
    rw [round2, h1, h2]; norm_num
  · have h1 : short_buffer 100 wes.short_ko = -14300 / 4857 := by
      norm_num [short_buffer, wes]
    have h2 : round ((-14300 : ℚ) / 4857 * 100) = -294 := by
      rw [round_eq, Int.floor_eq_iff]
      norm_num
    rw [round2, h1, h2]; norm_num

/-- The hypotheses of `C1_buffer_formulas` hold at the concrete price series
`[100]`, and the conclusion evaluates there. -/
theorem C1_buffer_formulas_witness :
    0 < (100 : ℚ) ∧ ([100] : List ℚ).getLast? = some 100 ∧
    (gaugesOf (update_live_price wes [100] id id id (fun _ _ => 0))
      = some ⟨long_buffer 100 wes.long_ko,
          long_color (long_buffer 100 wes.long_ko),
          short_buffer 100 wes.short_ko,
          short_color (short_buffer 100 wes.short_ko)⟩ ∧
    long_buffer 100 wes.long_ko = ((100 : ℚ) - 60) / 60 * 100 ∧
    short_buffer 100 wes.short_ko = (97.14 - (100 : ℚ)) / 97.14 * 100 ∧
    round2 (long_buffer 100 wes.long_ko) = 66.67 ∧
    round2 (short_buffer 100 wes.short_ko) = -2.94) :=
  ⟨by norm_num, rfl,
    C1_buffer_formulas 100 [100] (by norm_num) rfl id id id (fun _ _ => 0)⟩

/-- C2: for every non-empty fetched series the callback's simulation grid
has exactly 30 rows of 10 columns each, and row 0 holds the current price
(the last close) in every column. -/
theorem C2_grid_shape (cfg : WarrantConfig) (closes : List ℚ) (P : ℚ)
    (hP : closes.getLast? = some P) (expQ sqrtQ logQ : ℚ → ℚ)
    (rand : ℕ → ℕ → ℚ) :
    ∃ g, gridOf (update_live_price cfg closes expQ sqrtQ logQ rand) = some g ∧
      g.length = 30 ∧ (∀ row ∈ g, row.length = 10) ∧
      g.getD 0 [] = List.replicate 10 (some P) := by
  refine ⟨sim_paths expQ sqrtQ (mean? (log_returns logQ closes))
      (std? sqrtQ (log_returns logQ closes)) P rand, ?_, ?_, ?_, ?_⟩
  · simp [update_live_price, hP, gridOf]
  · simp [sim_paths, steps]
  · intro row hrow
    simp only [sim_paths, List.mem_map] at hrow
    obtain ⟨i, _, rfl⟩ := hrow
    simpa [paths] using sim_rows_length expQ sqrtQ
      (mean? (log_returns logQ closes)) (std? sqrtQ (log_returns logQ closes))
      P rand i
  · rw [sim_paths_getD expQ sqrtQ (mean? (log_returns logQ closes))
      (std? sqrtQ (log_returns logQ closes)) P rand 0 (by norm_num [steps])]
    rfl

/-- The hypothesis of `C2_grid_shape` holds at the one-point series `[100]`,
whose last close is 100, and the grid shape facts follow there. -/
theorem C2_grid_shape_witness :
    ([100] : List ℚ).getLast? = some 100 ∧
    (∃ g, gridOf (update_live_price wes [100] id id id (fun _ _ => 0))
        = some g ∧
      g.length = 30 ∧ (∀ row ∈ g, row.length = 10) ∧
      g.getD 0 [] = List.replicate 10 (some 100)) :=
  ⟨rfl, C2_grid_shape wes [100] 100 rfl id id id (fun _ _ => 0)⟩

/-- C3 fails on the code: at the one-point series `[100]` the callback does
not signal any insufficient-data condition (the result is a dashboard, not a
message), and row 1 of its simulation grid is entirely NaN (`none`), because
the drift and volatility of the empty log-return sample are NaN. -/
theorem C3_single_point_nan_grid :
    messageOf (update_live_price wes [100] id id id (fun _ _ => 0)) = none ∧
    (gridOf (update_live_price wes [100] id id id
      (fun _ _ => 0))).isSome = true ∧
    ((gridOf (update_live_price wes [100] id id id
      (fun _ _ => 0))).getD []).length = 30 ∧
    ((gridOf (update_live_price wes [100] id id id
      (fun _ _ => 0))).getD []).getD 1 [] = List.replicate 10 none := by
  refine ⟨by decide, by decide, by decide, by decide⟩

/-- C4: for a series of at least two points, the drift is the mean and the
volatility the (sample, `ddof = 1`) standard deviation of the daily
log-returns `log(close[t+1]/close[t])` with the undefined first value
dropped (the volatility of a single log-return is NaN), and each grid entry
advances its path by `exp((mu - 0.5*sigma^2)*1 + sigma*sqrt(1)*Z)` with the
per-step per-path draw `Z`. -/
theorem C4_simulation_model (cfg : WarrantConfig) (closes : List ℚ) (P : ℚ)
    (h2 : 2 ≤ closes.length) (hP : closes.getLast? = some P)
    (expQ sqrtQ logQ : ℚ → ℚ) (rand : ℕ → ℕ → ℚ) :
    (log_returns logQ closes).length = closes.length - 1 ∧
    (∀ t, t + 1 < closes.length →
      (log_returns logQ closes).getD t 0
        = logQ (closes.getD (t + 1) 0 / closes.getD t 0)) ∧
    mean? (log_returns logQ closes)
      = some ((log_returns logQ closes).sum
          / ((log_returns logQ closes).length : ℚ)) ∧
    (2 ≤ (log_returns logQ closes).length →
      std? sqrtQ (log_returns logQ closes)
        = some (sqrtQ (((log_returns logQ closes).map (fun x =>
            (x - (log_returns logQ closes).sum
              / ((log_returns logQ closes).length : ℚ)) ^ 2)).sum
            / (((log_returns logQ closes).length : ℚ) - 1)))) ∧
    ((log_returns logQ closes).length = 1 →
      std? sqrtQ (log_returns logQ closes) = none) ∧
    gridOf (update_live_price cfg closes expQ sqrtQ logQ rand)
      = some (sim_paths expQ sqrtQ (mean? (log_returns logQ closes))
          (std? sqrtQ (log_returns logQ closes)) P rand) ∧
    (∀ mu sigma i j, 0 < i → i < steps → j < paths →
      ((sim_paths expQ sqrtQ (some mu) (some sigma) P rand).getD i []).getD
          j none
        = omul (((sim_paths expQ sqrtQ (some mu) (some sigma) P
              rand).getD (i - 1) []).getD j none)
            (some (expQ ((mu - 0.5 * sigma ^ 2) * 1
              + sigma * sqrtQ 1 * rand i j)))) := by
  refine ⟨log_returns_length logQ closes,
    fun t ht => log_returns_getD logQ closes t ht, ?_, ?_, ?_, ?_, ?_⟩
  · have hne : (log_returns logQ closes).length ≠ 0 := by
      rw [log_returns_length]; omega
    simp [mean?, hne]
  · intro hlen
    have hge : ¬ ((log_returns logQ closes).length < 2) := not_lt.mpr hlen
    simp [std?, var1?, hge]
  · intro h1
    simp [std?, var1?, h1]
  · simp [update_live_price, hP, gridOf]
  · intro mu sigma i j hi his hj
    obtain ⟨k, rfl⟩ : ∃ k, i = k + 1 := ⟨i - 1, by omega⟩
    rw [Nat.add_sub_cancel,
      sim_paths_getD expQ sqrtQ (some mu) (some sigma) P rand (k + 1) his,
      sim_paths_getD expQ sqrtQ (some mu) (some sigma) P rand k (by omega),
      sim_rows_succ_getD expQ sqrtQ (some mu) (some sigma) P rand k j hj]
    rfl

/-- The hypotheses of `C4_simulation_model` hold at the three-point series
`[1, 1, 2]`, and the conclusion evaluates there. -/
theorem C4_simulation_model_witness :
    2 ≤ ([1, 1, 2] : List ℚ).length ∧
    ([1, 1, 2] : List ℚ).getLast? = some 2 ∧
    ((log_returns id [1, 1, 2]).length = ([1, 1, 2] : List ℚ).length - 1 ∧
    (∀ t, t + 1 < ([1, 1, 2] : List ℚ).length →
      (log_returns id [1, 1, 2]).getD t 0
        = id (([1, 1, 2] : List ℚ).getD (t + 1) 0
            / ([1, 1, 2] : List ℚ).getD t 0)) ∧
    mean? (log_returns id [1, 1, 2])
      = some ((log_returns id [1, 1, 2]).sum
          / ((log_returns id [1, 1, 2]).length : ℚ)) ∧
    (2 ≤ (log_returns id [1, 1, 2]).length →
      std? id (log_returns id [1, 1, 2])
        = some (id (((log_returns id [1, 1, 2]).map (fun x =>
            (x - (log_returns id [1, 1, 2]).sum
              / ((log_returns id [1, 1, 2]).length : ℚ)) ^ 2)).sum
            / (((log_returns id [1, 1, 2]).length : ℚ) - 1)))) ∧
    ((log_returns id [1, 1, 2]).length = 1 →
      std? id (log_returns id [1, 1, 2]) = none) ∧
    gridOf (update_live_price wes [1, 1, 2] id id id (fun _ _ => 0))
      = some (sim_paths id id (mean? (log_returns id [1, 1, 2]))
          (std? id (log_returns id [1, 1, 2])) 2 (fun _ _ => 0)) ∧
    (∀ mu sigma i j, 0 < i → i < steps → j < paths →
      ((sim_paths id id (some mu) (some sigma) 2
          (fun _ _ => 0)).getD i []).getD j none
        = omul (((sim_paths id id (some mu) (some sigma) 2
              (fun _ _ => 0)).getD (i - 1) []).getD j none)
            (some (id ((mu - 0.5 * sigma ^ 2) * 1
              + sigma * id 1 * (fun _ _ => (0 : ℚ)) i j))))) :=
  ⟨by norm_num, rfl,
    C4_simulation_model wes [1, 1, 2] 2 (by norm_num) rfl id id id
      (fun _ _ => 0)⟩

/-- C5: the risk tag is a pure step function of the gearing: HIGH RISK above
50, MODERATE above 30 up to 50, Stable otherwise; in particular 73, 40 and
20 classify as HIGH RISK, MODERATE and Stable. -/
theorem C5_risk_tag_step (g : ℚ) :
    (50 < g → risk_tag g = "🧨 HIGH RISK") ∧
    (30 < g ∧ g ≤ 50 → risk_tag g = "⚠️ MODERATE") ∧
    (g ≤ 30 → risk_tag g = "✅ Stable") ∧
    risk_tag 73 = "🧨 HIGH RISK" ∧
    risk_tag 40 = "⚠️ MODERATE" ∧
    risk_tag 20 = "✅ Stable" := by
  refine ⟨fun h => ?_, fun h => ?_, fun h => ?_, ?_, ?_, ?_⟩
  · simp only [risk_tag, gt_iff_lt, if_pos h]
  · simp only [risk_tag, gt_iff_lt, if_neg (not_lt.mpr h.2), if_pos h.1]
  · have h50 : ¬ 50 < g := not_lt.mpr (h.trans (by norm_num : (30 : ℚ) ≤ 50))
    have h30 : ¬ 30 < g := not_lt.mpr h
    simp only [risk_tag, gt_iff_lt, if_neg h50, if_neg h30]
  · norm_num [risk_tag]
  · norm_num [risk_tag]
  · norm_num [risk_tag]

/-- C6: an empty fetched series yields the designated no-data message with
empty figures, for every configuration; the callback is a total function, so
nothing is raised. -/
theorem C6_empty_series_no_data (cfg : WarrantConfig)
    (expQ sqrtQ logQ : ℚ → ℚ) (rand : ℕ → ℕ → ℚ) :
    update_live_price cfg [] expQ sqrtQ logQ rand
      = .message "No data available..." ∧
    update_live_price_guarded (.ok []) cfg expQ sqrtQ logQ rand
      = .message "No data available..." :=
  ⟨rfl, rfl⟩

/-- C7: a failing fetch is converted into the generic user-visible error
message with empty figures; the empty-data case lands in the same
message-plus-empty-figures shape; and every fetch outcome produces either a
message or a dashboard, never anything fatal. -/
theorem C7_failures_caught (cfg : WarrantConfig) (expQ sqrtQ logQ : ℚ → ℚ)
    (rand : ℕ → ℕ → ℚ) (e : String) :
    update_live_price_guarded (.error e) cfg expQ sqrtQ logQ rand
      = .message ("Error loading data: " ++ e) ∧
    (messageOf (update_live_price_guarded (.error e) cfg expQ sqrtQ logQ
      rand)).isSome = true ∧
    (messageOf (update_live_price_guarded (.ok []) cfg expQ sqrtQ logQ
      rand)).isSome = true ∧
    (∀ fetch : Except String (List ℚ),
      (∃ s, update_live_price_guarded fetch cfg expQ sqrtQ logQ rand
          = .message s) ∨
      (∃ d g sim, update_live_price_guarded fetch cfg expQ sqrtQ logQ rand
          = .dashboard d g sim)) := by
  refine ⟨rfl, rfl, rfl, fun fetch => ?_⟩
  cases fetch with
  | error e => exact Or.inl ⟨_, rfl⟩
  | ok closes =>
      simp only [update_live_price_guarded]
      unfold update_live_price
      split
      · exact Or.inl ⟨_, rfl⟩
      · exact Or.inr ⟨_, _, _, rfl⟩

/-- The hypotheses-free instantiation of `C7_failures_caught` at a concrete
exception text. -/
theorem C7_failures_caught_witness :
    update_live_price_guarded (.error "connection reset") wes id id id
        (fun _ _ => 0)
      = .message ("Error loading data: " ++ "connection reset") :=
  (C7_failures_caught wes id id id (fun _ _ => 0) "connection reset").1

/-- C8 as frozen is refuted: two recompute ticks with the same fetched
series `[1, 1, 2]` and the same config produce different outputs when their
(unseeded) standard-normal draws differ — the simulation grid depends on the
draws, not only on series and config. -/
theorem C8_counterexample :
    update_live_price wes [1, 1, 2] id id id (fun _ _ => 0)
      ≠ update_live_price wes [1, 1, 2] id id id (fun _ _ => 1) := by
  have hmu : mean? (log_returns id ([1, 1, 2] : List ℚ)) = some (3 / 2) := by
    norm_num [mean?, log_returns, List.zipWith_cons_cons]
  have hsigma : std? id (log_returns id ([1, 1, 2] : List ℚ))
      = some (1 / 2) := by
    norm_num [std?, var1?, log_returns, List.zipWith_cons_cons]
  have hg0 : gridOf (update_live_price wes [1, 1, 2] id id id (fun _ _ => 0))
      = some (sim_paths id id (mean? (log_returns id [1, 1, 2]))
          (std? id (log_returns id [1, 1, 2])) 2 (fun _ _ => 0)) := rfl
  have hg1 : gridOf (update_live_price wes [1, 1, 2] id id id (fun _ _ => 1))
      = some (sim_paths id id (mean? (log_returns id [1, 1, 2]))
          (std? id (log_returns id [1, 1, 2])) 2 (fun _ _ => 1)) := rfl
  have h01 := sim_rows_succ_getD id id (some ((3 : ℚ) / 2)) (some ((1 : ℚ) / 2))
    2 (fun _ _ => 0) 0 0 (by norm_num [paths])
  have h11 := sim_rows_succ_getD id id (some ((3 : ℚ) / 2)) (some ((1 : ℚ) / 2))
    2 (fun _ _ => 1) 0 0 (by norm_num [paths])
  simp only [Nat.zero_add] at h01 h11
  have e0 : (((gridOf (update_live_price wes [1, 1, 2] id id id
      (fun _ _ => 0))).getD []).getD 1 []).getD 0 none = some (11 / 4) := by
    rw [hg0, hmu, hsigma, Option.getD_some,
      sim_paths_getD id id (some ((3 : ℚ) / 2)) (some ((1 : ℚ) / 2)) 2
        (fun _ _ => 0) 1 (by norm_num [steps]), h01]
    norm_num [sim_rows, paths, List.getD_eq_getElem?_getD,
      List.getElem?_replicate, gbm_factor, omul, dt]
  have e1 : (((gridOf (update_live_price wes [1, 1, 2] id id id
      (fun _ _ => 1))).getD []).getD 1 []).getD 0 none = some (15 / 4) := by
    rw [hg1, hmu, hsigma, Option.getD_some,
      sim_paths_getD id id (some ((3 : ℚ) / 2)) (some ((1 : ℚ) / 2)) 2
        (fun _ _ => 1) 1 (by norm_num [steps]), h11]
    norm_num [sim_rows, paths, List.getD_eq_getElem?_getD,
      List.getElem?_replicate, gbm_factor, omul, dt]
  intro h
  have hproj := congrArg
    (fun r => (((gridOf r).getD []).getD 1 []).getD 0 none) h
  simp only at hproj
  rw [e0, e1] at hproj
  exact absurd (Option.some.inj hproj) (by norm_num)

/-- C8 amended: the text panel, the gauge values and colors, and the message
branch are pure functions of the fetched series and the static config — they
do not depend on the stochastic primitives or the random draws — while the
simulation grid additionally depends on the tick's fresh draws; nothing else
flows between ticks. -/
theorem C8_derived_purity (cfg : WarrantConfig) (closes : List ℚ)
    (expQ sqrtQ logQ expQ' sqrtQ' logQ' : ℚ → ℚ) (rand rand' : ℕ → ℕ → ℚ) :
    displayOf (update_live_price cfg closes expQ sqrtQ logQ rand)
      = displayOf (update_live_price cfg closes expQ' sqrtQ' logQ' rand') ∧
    gaugesOf (update_live_price cfg closes expQ sqrtQ logQ rand)
      = gaugesOf (update_live_price cfg closes expQ' sqrtQ' logQ' rand') ∧
    messageOf (update_live_price cfg closes expQ sqrtQ logQ rand)
      = messageOf (update_live_price cfg closes expQ' sqrtQ' logQ' rand') ∧
    (gridOf (update_live_price cfg closes expQ sqrtQ logQ rand)
      = some (sim_paths expQ sqrtQ (mean? (log_returns logQ closes))
          (std? sqrtQ (log_returns logQ closes))
          (closes.getLast?.getD 0) rand) ∨
    update_live_price cfg closes expQ sqrtQ logQ rand
      = .message "No data available...") := by
  cases h : closes.getLast? with
  | none =>
      refine ⟨?_, ?_, ?_, Or.inr ?_⟩ <;>
        simp [update_live_price, h, displayOf, gaugesOf, messageOf]
  | some P =>
      refine ⟨?_, ?_, ?_, Or.inl ?_⟩ <;>
        simp [update_live_price, h, displayOf, gaugesOf, messageOf, gridOf]

/-- C9: the timer period is the selected seconds times 1000: the slider
mirrors the preset, the `Coffee Break` preset maps to 120 seconds hence
120000 ms, slider value 45 gives 45000 ms, and the slider is configured as
the 10 to 300 range with step 10. -/
theorem C9_interval_timer (n : ℤ) :
    update_interval (sync_preset_to_slider n) = n * 1000 ∧
    List.lookup "Coffee Break (120s)" interval_presets = some 120 ∧
    update_interval (sync_preset_to_slider 120) = 120000 ∧
    update_interval 45 = 45000 ∧
    interval_slider_min = 10 ∧ interval_slider_max = 300 ∧
    interval_slider_step = 10 :=
  ⟨rfl, by decide, by decide, by decide, rfl, rfl, rfl⟩

/-- C10: with positive barriers, the long buffer is strictly increasing and
the short buffer strictly decreasing in the current price. -/
theorem C10_buffer_monotone (L S P1 P2 : ℚ) (hL : 0 < L) (hS : 0 < S)
    (h : P1 < P2) :
    long_buffer P1 L < long_buffer P2 L ∧
    short_buffer P2 S < short_buffer P1 S := by
  constructor
  · exact mul_lt_mul_of_pos_right
      ((div_lt_div_iff_of_pos_right hL).mpr (by linarith)) (by norm_num)
  · exact mul_lt_mul_of_pos_right
      ((div_lt_div_iff_of_pos_right hS).mpr (by linarith)) (by norm_num)

/-- The hypotheses of `C10_buffer_monotone` hold at the WES barriers with
prices 50 < 100, and the strict comparisons follow there. -/
theorem C10_buffer_monotone_witness :
    0 < (60 : ℚ) ∧ 0 < (97.14 : ℚ) ∧ (50 : ℚ) < 100 ∧
    (long_buffer 50 60 < long_buffer 100 60 ∧
      short_buffer 100 97.14 < short_buffer 50 97.14) :=
  ⟨by norm_num, by norm_num, by norm_num,
    C10_buffer_monotone 60 97.14 50 100 (by norm_num) (by norm_num)
      (by norm_num)⟩

end Remora
